import Mathlib

/-!
Verification development for the wapanel messaging gateway.

Shallow embedding of the core components (rate limiter, gateway client
response classification, backfill locking, webhook ingestion, media
download/retry, outbound dispatch, history backfill adapter) translated
from the Python sources under `src/`, together with theorems settling the
frozen specification claims about them.
-/

namespace Wapanel

/-! ## Shared enums (src/shared/models.py) -/

/-- `MessageDirection` enum from src/shared/models.py. -/
inductive MessageDirection
  | inc
  | out
  | sys
  deriving DecidableEq, Repr

/-- `MessageType` enum from src/shared/models.py. -/
inductive MessageType
  | text
  | file_image
  | file_video
  | file_audio
  | file_doc
  | notification
  | call
  | location
  | contact
  deriving DecidableEq, Repr

/-- `MessageStatus` enum from src/shared/models.py. -/
inductive MessageStatus
  | pending
  | sent
  | error_api
  | error_int
  | delivered
  | read
  | incoming
  deriving DecidableEq, Repr

/-- `FileType` enum from src/shared/models.py. -/
inductive FileType
  | image
  | video
  | audio
  | other
  deriving DecidableEq, Repr

/-- Python truthiness of an optional string value (`if x:` on `str | None`):
`None` and the empty string are falsy. -/
def pyTruthy : Option String → Bool
  | none => false
  | some s => !(s == "")

/-! ## Media file naming (C7)

`download_safe` (src/app/green_api/green_msg.py) computes
`local = MEDIA_ROOT/<yyyy>/<mm>/<fname>` and opens it with mode "wb"; it
performs no collision check at all.  The incrementing-suffix policy lives in
`_build_media_path` (src/admin/utils/files.py): starting from `fname`, while
the candidate exists, it retries with the name `f"{stem}_{n}{suf}"` for
n = 1, 2, ….

File names inside one month directory are modelled structurally as a stem,
an optional numeric suffix (the `_n` inserted before the extension), and an
extension, so that the injectivity of the f-string encoding is explicit. -/

/-- A file name within one month-bucketed media directory: `stem`, optional
numeric `_n` suffix inserted before the extension, and extension `ext`
(Python `Path(fname).stem` / `Path(fname).suffix`). -/
structure MediaName where
  stem : String
  idx : Option Nat
  ext : String
  deriving DecidableEq, Repr

/-- The candidate sequence tried by `_build_media_path`: candidate 0 is the
original name `dst / fname`, candidate (n+1) is `dst / f"{stem}_{n+1}{suf}"`. -/
def mediaCandidate (stem ext : String) : Nat → MediaName
  | 0 => { stem := stem, idx := none, ext := ext }
  | n + 1 => { stem := stem, idx := some (n + 1), ext := ext }

/-- Distinct candidate indices name distinct files. -/
lemma mediaCandidate_injective (stem ext : String) :
    Function.Injective (mediaCandidate stem ext) := by
  intro a b hab
  cases a <;> cases b <;> simp [mediaCandidate] at hab <;> omega

/-- The `while candidate.exists()` loop of `_build_media_path` terminates:
the candidates are pairwise distinct, so a finite directory leaves one
free. -/
lemma exists_free_candidate (existing : List MediaName) (stem ext : String) :
    ∃ n, mediaCandidate stem ext n ∉ existing := by
  classical
  by_contra hall
  push_neg at hall
  have hsub : ∀ n ∈ Finset.range (existing.length + 1),
      mediaCandidate stem ext n ∈ existing := fun n _ => hall n
  have hcard := Finset.card_le_card_of_injOn
    (fun n => mediaCandidate stem ext n)
    (fun n hn => List.mem_toFinset.mpr (hsub n hn))
    (fun a _ b _ hab => mediaCandidate_injective stem ext hab)
  simp only [Finset.card_range] at hcard
  have hle : existing.toFinset.card ≤ existing.length :=
    existing.toFinset_card_le
  omega

/-- `_build_media_path` (src/admin/utils/files.py): first free candidate in
the directory, scanning candidate 0, 1, 2, … in order (the `while
candidate.exists()` loop with `n` starting at 1). The existing directory
contents are modelled as the list `existing`. -/
def buildMediaPath (existing : List MediaName) (stem ext : String) : MediaName :=
  mediaCandidate stem ext (Nat.find (exists_free_candidate existing stem ext))

/-- `download_safe` target path (src/app/green_api/green_msg.py line
`local = dst_dir / fname`): the stored path is just the file name itself,
regardless of the directory contents `existing` — no collision check, and
the existing file is opened with mode "wb", i.e. truncated and
overwritten. -/
def downloadTargetName (_existing : List MediaName) (stem ext : String) : MediaName :=
  { stem := stem, idx := none, ext := ext }

/-! ## Gateway client response classification (C8)

`GreenAPIClient._json` (src/app/green_api/client.py lines 163-190):
after acquiring the limiter, issue the request; status 429 calls
`limiter.block()` and raises `GreenAPIThrottleError`; any status ≥ 400
raises `GreenAPIError` carrying the response text; otherwise the decoded
JSON body is returned. -/

/-- Error taxonomy of the gateway client (`GreenAPIThrottleError` /
`GreenAPIError` from app.green_api.exceptions, as used by `_json`). -/
inductive GError
  | throttle (msg : String)
  | provider (msg : String)
  deriving DecidableEq, Repr

/-- Outcome of the response-classification step of `_json`: whether
`limiter.block()` was invoked, and the result surfaced to the caller
(decoded body or raised error). -/
structure JsonOutcome (β : Type) where
  blocked : Bool
  result : Except GError β
  deriving Repr

/-- Response classification in `GreenAPIClient._json`
(src/app/green_api/client.py lines 179-189). `status` is the HTTP status,
`bodyText` the raw response text, `decoded` the decoded JSON body. -/
def jsonClassify {β : Type} (status : Nat) (bodyText : String) (decoded : β) :
    JsonOutcome β :=
  if status == 429 then
    { blocked := true, result := .error (.throttle "429 Too Many Requests") }
  else if status ≥ 400 then
    { blocked := false
      result := .error (.provider ("GREEN-API " ++ toString status ++ ": " ++ bodyText)) }
  else
    { blocked := false, result := .ok decoded }

/-! ## Backfill lock (C3)

`admin_history` (src/app/routes/admin_qr.py lines 86-102): look the lock up
in the module-level `history_lock` dict with `setdefault(api_id, Lock())`;
if `lock.locked()`, immediately return HTTP 409 `{"error":
"already_running"}`; otherwise `await lock.acquire()` (free, so it succeeds
at once) and schedule the backfill task, returning HTTP 201. -/

/-- The `history_lock` map: association list from api_id to whether that
account's `asyncio.Lock` is currently held. -/
def LockMap := List (Nat × Bool)

/-- `lock.locked()` for the entry of `api_id` after
`history_lock.setdefault(api_id, asyncio.Lock())`: a freshly inserted lock
is unheld. -/
def lockHeld (m : LockMap) (apiId : Nat) : Bool :=
  (List.lookup apiId m).getD false

/-- `dict.setdefault(api_id, asyncio.Lock())`: insert an unheld lock if the
key is absent, otherwise leave the map unchanged. -/
def lockSetdefault (m : LockMap) (apiId : Nat) : LockMap :=
  match List.lookup apiId m with
  | some _ => m
  | none => (apiId, false) :: m

/-- Mark the lock of `apiId` as held (`await lock.acquire()` succeeding
immediately on a free lock), leaving every other entry unchanged. -/
def lockAcquire : LockMap → Nat → LockMap
  | [], _ => []
  | p :: rest, apiId =>
    (if p.1 == apiId then (p.1, true) else p) :: lockAcquire rest apiId

/-- `admin_history` (src/app/routes/admin_qr.py): returns the HTTP status of
the response (409 conflict or 201 scheduled) and the updated lock map. The
handler never waits: a held lock yields 409 at once. -/
def adminHistory (m : LockMap) (apiId : Nat) : Nat × LockMap :=
  let m1 := lockSetdefault m apiId
  if lockHeld m1 apiId then
    (409, m1)
  else
    (201, lockAcquire m1 apiId)

/-! ## Outbound dispatch (C9)

`msg_outbox` handler (src/app/listeners/msg_out_listener.py lines 59-73):
load the message; abort if archived or not from_app; with attachments call
`_send_files`, else a single `send_message`.  `_send_files` (lines 116-136)
walks `msg.files` in order, calling `client.send_file` per file; the local
`caption` starts as `msg.text or ""` and is reset to `""` after the first
call. -/

/-- A stored attachment row (`MessageFile`) as read by the dispatcher. -/
structure FileRec where
  ftype : FileType
  name : String
  mime : String
  path : String
  url : String
  size : Nat
  deriving DecidableEq, Repr

/-- One provider call issued by the dispatcher. -/
inductive SendCall
  | sendText (chatId : String) (text : String)
  | sendFile (chatId : String) (filename : String) (mime : String) (caption : String)
  deriving DecidableEq, Repr

/-- The outbound message fields the dispatcher reads. -/
structure OutMsg where
  chat_id : String
  text : Option String
  files : List FileRec
  is_archived : Bool
  from_app : Bool
  deriving Repr

/-- The loop body of `_send_files`: one `send_file` call per file record, in
order, threading the `caption` variable (reset to `""` after each call). -/
def sendFilesLoop (chatId : String) (caption : String) : List FileRec → List SendCall
  | [] => []
  | f :: rest => .sendFile chatId f.name f.mime caption :: sendFilesLoop chatId "" rest

/-- `_send_files` (src/app/listeners/msg_out_listener.py lines 116-136):
`caption = msg.text or ""`, then the per-file loop. -/
def sendFiles (msg : OutMsg) : List SendCall :=
  sendFilesLoop msg.chat_id (msg.text.getD "") msg.files

/-- The provider calls issued by the `msg_outbox` handler for a loaded
message (src/app/listeners/msg_out_listener.py lines 59-73): nothing when
archived or not admin-originated; `_send_files` when there are attachments;
a single text send otherwise. -/
def msgOutboxCalls (msg : OutMsg) : List SendCall :=
  if msg.is_archived || !msg.from_app then []
  else if !msg.files.isEmpty then sendFiles msg
  else [.sendText msg.chat_id (msg.text.getD "")]

/-! ## Rate limiter (C2)

`SmartLimiter` (src/app/green_api/limiter.py) subclasses aiolimiter's
`AsyncLimiter`.  Construction: `rps ≥ 1` gives `max_rate = rps`,
`time_period = 1`, `period = 1/rps`; `rps < 1` gives `max_rate = 1`,
`time_period = round(1/rps)`, `period = round(1/rps)`.

`block()` sets `_blocked_until = now + 1.5 * period`.  `wait_slot()` sleeps
out `_blocked_until` and then awaits `acquire()`.  Crucially,
`GreenAPIClient._json` (src/app/green_api/client.py line 179) enters the
limiter with `async with limiter:`, which is the inherited
`AsyncLimiter.__aenter__` — i.e. a bare `acquire()` that never consults
`_blocked_until`; `wait_slot` is not called anywhere in the repository.

The aiolimiter token bucket (external library) is modelled by its
documented semantics: the bucket level leaks at rate `max_rate /
time_period`, and `acquire()` completes as soon as the leaked level plus
one does not exceed `max_rate`. Times and rates are rationals. -/

/-- `SmartLimiter` state: configuration plus the aiolimiter bucket level at
`lastCheck`, plus the cooldown timestamp set by `block()`. -/
structure SmartLimiter where
  maxRate : ℚ
  timePeriod : ℚ
  period : ℚ
  level : ℚ
  lastCheck : ℚ
  blockedUntil : Option ℚ
  deriving DecidableEq, Repr

/-- `SmartLimiter.__init__` (src/app/green_api/limiter.py lines 11-20) for a
fresh limiter created at time `now` (empty bucket, no cooldown). -/
def mkSmartLimiter (rps : ℚ) (now : ℚ) : SmartLimiter :=
  if rps ≥ 1 then
    { maxRate := rps, timePeriod := 1, period := 1 / rps
      level := 0, lastCheck := now, blockedUntil := none }
  else
    { maxRate := 1, timePeriod := (round (1 / rps) : ℤ)
      period := (round (1 / rps) : ℤ)
      level := 0, lastCheck := now, blockedUntil := none }

/-- Completion time of `AsyncLimiter.acquire()` called at time `t`: the
bucket level leaks at rate `maxRate / timePeriod`; the call returns at the
earliest time ≥ `t` at which the leaked level is ≤ `maxRate - 1` (closed
form of the aiolimiter wait loop). -/
def acquireDoneAt (s : SmartLimiter) (t : ℚ) : ℚ :=
  max t (s.lastCheck + (s.level - (s.maxRate - 1)) * s.timePeriod / s.maxRate)

/-- Completion time of a slot acquisition through `GreenAPIClient._json`
(src/app/green_api/client.py line 179): `async with limiter` runs the
inherited `AsyncLimiter.acquire`, which does not read `_blocked_until`. -/
def jsonAcquireDoneAt (s : SmartLimiter) (t : ℚ) : ℚ :=
  acquireDoneAt s t

/-- Completion time of `SmartLimiter.wait_slot` (src/app/green_api/limiter.py
lines 22-27): sleep until `_blocked_until` if it lies in the future, then
`acquire()`. -/
def waitSlotDoneAt (s : SmartLimiter) (t : ℚ) : ℚ :=
  let t1 := match s.blockedUntil with
    | some u => if u - t > 0 then u else t
    | none => t
  acquireDoneAt s t1

/-- `SmartLimiter.block` (src/app/green_api/limiter.py lines 29-34) called at
time `t`: set `_blocked_until = t + 1.5 * period`. -/
def limiterBlock (s : SmartLimiter) (t : ℚ) : SmartLimiter :=
  { s with blockedUntil := some (t + 3 / 2 * s.period) }

/-! ## Media download retry loop (C6)

`download_safe` (src/app/green_api/green_msg.py lines 39-89): defaults
`retries = 3`, `backoff = 1.5`; `attempt = 0`; `while attempt <= retries:`
try the download (a zero-byte result raises `ValueError`, i.e. counts as a
failure); on failure `attempt += 1`, the partial file is unlinked, and if
`attempt > retries` give up returning `None`, else sleep
`(backoff ** attempt) * (0.5 + random()/2)` and loop.

The network is modelled by an oracle `outcome : ℕ → DlOutcome` giving the
result of the (i+1)-th try, and the jitter `0.5 + random()/2` by an oracle
`jitter : ℕ → ℚ` (its value lies in `[1/2, 1)`). The model records the
result, the number of tries performed, the sleeps in order, and the number
of `unlink` calls. -/

/-- Result of one download try: `ok size` (HTTP success with `size` bytes
written) or `err` (ClientError / TimeoutError / OSError). -/
inductive DlOutcome
  | ok (size : Nat)
  | err
  deriving DecidableEq, Repr

/-- Whether a try counts as failed in `download_safe`: network errors fail,
and a zero-byte success raises `ValueError("downloaded file is empty")`. -/
def dlFails : DlOutcome → Bool
  | .ok 0 => true
  | .ok _ => false
  | .err => true

/-- Observable trace of one `download_safe` call. -/
structure DlTrace where
  result : Option Nat
  attempts : Nat
  sleeps : List ℚ
  unlinks : Nat
  deriving Repr

/-- The `while attempt <= retries` loop of `download_safe`. `attempt` is the
failure counter from the source; `tries` counts the download tries already
made (index into the oracle); `sleepsAcc`/`unlinksAcc` accumulate the trace. -/
def dlLoop (outcome : Nat → DlOutcome) (jitter : Nat → ℚ) (retries : Nat)
    (backoff : ℚ) (attempt tries : Nat) (sleepsAcc : List ℚ) (unlinksAcc : Nat) :
    DlTrace :=
  if _h : attempt ≤ retries then
    match outcome tries with
    | o =>
      if dlFails o then
        let a2 := attempt + 1
        if h2 : a2 > retries then
          { result := none, attempts := tries + 1, sleeps := sleepsAcc
            unlinks := unlinksAcc + 1 }
        else
          dlLoop outcome jitter retries backoff a2 (tries + 1)
            (sleepsAcc ++ [backoff ^ a2 * jitter a2]) (unlinksAcc + 1)
      else
        { result := some (match o with | .ok n => n | .err => 0)
          attempts := tries + 1, sleeps := sleepsAcc, unlinks := unlinksAcc }
  else
    { result := none, attempts := tries, sleeps := sleepsAcc, unlinks := unlinksAcc }
termination_by retries + 1 - attempt
decreasing_by omega

/-- `download_safe` retry behaviour for a non-empty URL (src/app/green_api/
green_msg.py lines 39-89) with the default `retries = 3`, `backoff = 1.5`. -/
def downloadSafeTrace (outcome : Nat → DlOutcome) (jitter : Nat → ℚ) : DlTrace :=
  dlLoop outcome jitter 3 (3 / 2) 0 0 [] 0

/-! ## Webhook payloads and ingestion (src/app/green_api/green_msg.py)

The provider payload dicts are embedded as structures whose `Option` fields
record key presence (`.get` returning `None` ⇄ `none`); a `dict[key]` read
of an absent key is the Python `KeyError`, modelled in an `Except` monad.
External library calls (the HTTP download, `urlparse`-based basename
extraction, the conversation lookup) are oracles in an `IngestEnv`. -/

/-- Python exceptions surfaced by the embedded code. -/
inductive PyErr
  | keyError
  | attributeError
  deriving DecidableEq, Repr

/-- A required dict read `d[k]`: `KeyError` when the key is absent. -/
def req {α : Type} : Option α → Except PyErr α
  | some a => .ok a
  | none => .error .keyError

/-- Python `str.strip()`: drop leading and trailing whitespace. -/
def pyStrip (s : String) : String :=
  String.mk (((s.data.dropWhile Char.isWhitespace).reverse.dropWhile
    Char.isWhitespace).reverse)

/-- Everything before the last occurrence of `sep`
(Python `s.rsplit(sep, 1)[0]` for a string containing `sep`). -/
def rsplitBefore (s sep : String) : String :=
  String.intercalate sep ((s.splitOn sep).dropLast)

/-- Last segment after splitting on `sep` (Python `s.split(sep)[-1]`). -/
def lastSegment (s sep : String) : String :=
  ((s.splitOn sep).getLastD s)

/-- `locationMessageData` fields read by `_location_to_text`. The numeric
latitude/longitude are represented by their rendered strings, Python
falsiness of the number by the empty rendering. -/
structure LocMD where
  nameLocation : Option String
  address : Option String
  latitude : String
  longitude : String
  deriving DecidableEq, Repr

/-- `contactMessageData` fields read by `_contact_to_text`. -/
structure ContactMD where
  displayName : Option String
  vcard : String
  deriving DecidableEq, Repr

/-- `groupInviteMessageData` fields. -/
structure GroupInviteMD where
  groupName : String
  groupJid : String
  deriving DecidableEq, Repr

/-- `pollMessageData` fields (each option reduced to its `optionName`). -/
structure PollMD where
  name : String
  options : List String
  deriving DecidableEq, Repr

/-- `interactiveButtons` fields (each button reduced to its `buttonText`). -/
structure InteractiveMD where
  titleText : Option String
  contentText : String
  buttons : List String
  deriving DecidableEq, Repr

/-- `fileMessageData` dict. -/
structure FileMD where
  downloadUrl : Option String
  caption : Option String
  fileName : Option String
  mimeType : Option String
  jpegThumbnail : Option String
  isAnimated : Option Bool
  deriving DecidableEq, Repr

/-- `messageData` dict: the type tag plus the per-type sub-dicts
`payload_to_msg` reads.  Nested single-field dicts are flattened to the
read value: `textMessageData` stands for
`mdata["textMessageData"]["textMessage"]`, `extendedTextData` for
`mdata["extendedTextMessageData"]["text"]`, `innerContacts` for
`mdata["messageData"]["contacts"]`. -/
structure MessageData where
  typeMessage : String
  textMessageData : Option String
  extendedTextData : Option String
  fileMessageData : Option FileMD
  locationMessageData : Option LocMD
  contactMessageData : Option ContactMD
  innerContacts : Option (List ContactMD)
  groupInviteMessageData : Option GroupInviteMD
  pollMessageData : Option PollMD
  interactiveButtons : Option InteractiveMD
  deriving Repr

/-- A `messageData` dict carrying only its type tag. -/
def mdOfType (t : String) : MessageData :=
  { typeMessage := t, textMessageData := none, extendedTextData := none
    fileMessageData := none, locationMessageData := none
    contactMessageData := none, innerContacts := none
    groupInviteMessageData := none, pollMessageData := none
    interactiveButtons := none }

/-- The webhook payload fields the handlers read. -/
structure GPayload where
  typeWebhook : String
  idMessage : String
  timestamp : Nat
  idInstance : Nat
  chatId : String
  senderName : Option String
  messageData : MessageData
  status : Option String
  description : Option String
  deriving Repr

/-- The canonical ORM `Message` fields written by the ingestion path. -/
structure Msg where
  instance_id : Nat
  conversation_id : Nat
  wa_message_id : Option String
  chat_id : String
  chat_name : String
  created_at : Nat
  from_app : Bool
  direction : MessageDirection
  status : MessageStatus
  message_type : MessageType
  text : Option String
  is_archived : Bool
  files : List FileRec
  deriving Repr

/-- External-effect oracles for `payload_to_msg`: the provider
`downloadFile` endpoint, `download_safe`'s overall result for a non-empty
URL, `os.path.basename(unquote(urlparse(url).path))`, `_public_url`, and
the id of the conversation resolved by `get_or_create_conversation`. -/
structure IngestEnv where
  downloadFileUrl : String → String → Option String
  download : String → String → Option (String × Nat)
  urlBasename : String → String
  publicUrlOf : String → String
  convId : String → Nat

/-- `_IGNORE_MTYPE` (src/app/green_api/green_msg.py lines 31-35). -/
def IGNORE_MTYPE : List String :=
  ["pollUpdateMessage", "interactiveButtonsReply", "templateButtonsReplyMessage"]

/-- The text-like provider types handled by the first branch of
`payload_to_msg`. -/
def TEXT_MTYPES : List String :=
  ["textMessage", "extendedTextMessage", "reactionMessage", "quotedMessage"]

/-- `_EXT2FCLS` (src/app/green_api/green_msg.py lines 23-29). -/
def EXT2FCLS (mtype : String) : Option (MessageType × FileType) :=
  if mtype == "imageMessage" then some (.file_image, .image)
  else if mtype == "stickerMessage" then some (.file_image, .image)
  else if mtype == "videoMessage" then some (.file_video, .video)
  else if mtype == "audioMessage" then some (.file_audio, .audio)
  else if mtype == "documentMessage" then some (.file_doc, .other)
  else none

/-- `_location_to_text` (src/app/green_api/green_msg.py). Note the source
quirk `d['longitude' or "--"]` indexes by the constant key `'longitude'`,
so only the latitude gets the `"--"` fallback. -/
def locationToText (d : LocMD) : String :=
  "<местоположение>\n"
    ++ (if pyTruthy d.nameLocation then d.nameLocation.getD "" else "") ++ "\n"
    ++ d.address.getD "" ++ "\n"
    ++ "шир. " ++ (if d.latitude == "" then "--" else d.latitude)
    ++ ", долг. " ++ d.longitude

/-- The phone list extracted from a vcard by `_contact_to_text`: the part of
each line after `waid=`, for the lines containing `waid=`, joined by
commas. -/
def vcardPhones (vcard : String) : String :=
  String.intercalate ", "
    (((vcard.splitOn "\n").filter (fun l => 2 ≤ (l.splitOn "waid=").length)).map
      (fun l => (l.splitOn "waid=").getLastD l))

/-- `_contact_to_text` (src/app/green_api/green_msg.py). -/
def contactToText (c : ContactMD) : String :=
  (("<контакт>\n"
    ++ (if pyTruthy c.displayName then c.displayName.getD "" else "Contact"))
    ++ ":\n") ++ vcardPhones c.vcard

/-- The result of `download_safe(url, fname, …)` including its opening
empty-URL guard (`if not url or url.strip() == "": return None`); the retry
loop's overall outcome is the `env.download` oracle. -/
def downloadSafeResult (env : IngestEnv) (url fname : String) :
    Option (String × Nat) :=
  if url == "" || pyStrip url == "" then none else env.download url fname

/-- The type/text/attachments outcome of the per-type branch chain of
`payload_to_msg` (src/app/green_api/green_msg.py lines 162-242): `none` for
the ignored types, otherwise the `message_type`, `text` and `files` the
branch writes into the skeleton message; a read of an absent required key
is a `KeyError`. -/
def payloadBody (env : IngestEnv) (payload : GPayload) :
    Except PyErr (Option (MessageType × Option String × List FileRec)) := do
  let mdata := payload.messageData
  let mtype := mdata.typeMessage
  if mtype ∈ IGNORE_MTYPE then
    return none
  if mtype ∈ TEXT_MTYPES then
    let t ← req (if mtype == "textMessage" then mdata.textMessageData
                 else mdata.extendedTextData)
    return some (.text, some t, [])
  else
    match EXT2FCLS mtype with
    | some (mt, fcls) => do
      let fm ← req mdata.fileMessageData
      let fname1 :=
        if pyTruthy fm.fileName then fm.fileName.getD ""
        else
          let p := env.urlBasename (fm.downloadUrl.getD "")
          if p == "" then payload.idMessage else p
      let fname :=
        if !(fname1.contains '.') && pyTruthy fm.mimeType then
          fname1 ++ "." ++ lastSegment (fm.mimeType.getD "") "/"
        else fname1
      let fcaption := fm.caption
      let dlUrl :=
        if pyTruthy fm.downloadUrl then fm.downloadUrl.getD ""
        else (env.downloadFileUrl payload.chatId payload.idMessage).getD ""
      match downloadSafeResult env dlUrl fname with
      | none =>
        if pyTruthy fcaption then
          return some (.text,
            some (fcaption.getD "" ++ "\n<Не удалось скачать файл ("
              ++ (if pyTruthy fm.fileName then fm.fileName.getD "" else "--") ++ ")>"),
            [])
        else
          return some (.text,
            some ("<Не удалось скачать файл ("
              ++ (if pyTruthy fm.fileName then fm.fileName.getD "" else "no-name") ++ ")>"),
            [])
      | some (fpath, fsize) => do
        let mime ← req fm.mimeType
        return some (mt, fcaption,
          [{ ftype := fcls, name := fname, mime := mime, path := fpath
             url := env.publicUrlOf fpath, size := fsize }])
    | none =>
      if mtype == "locationMessage" then do
        let d ← req mdata.locationMessageData
        return some (.text, some (locationToText d), [])
      else if mtype == "contactMessage" then do
        let c ← req mdata.contactMessageData
        return some (.text, some (contactToText c), [])
      else if mtype == "contactsArrayMessage" then do
        let arr ← req mdata.innerContacts
        return some (.text, some (String.intercalate "\n" (arr.map contactToText)), [])
      else if mtype == "groupInviteMessage" then do
        let g ← req mdata.groupInviteMessageData
        return some (.text,
          some ("<приглашение в группу>\n" ++ g.groupName ++ " (" ++ g.groupJid ++ ")"), [])
      else if mtype == "pollMessage" then do
        let p ← req mdata.pollMessageData
        return some (.text,
          some ("<опрос>\n" ++ p.name ++ "\n"
            ++ String.intercalate "\n" (p.options.map (fun o => "- " ++ o))), [])
      else if mtype == "interactiveButtons" then do
        let b ← req mdata.interactiveButtons
        return some (.text,
          some ((b.titleText.getD "") ++ "\n" ++ b.contentText ++ "\n-------\n"
            ++ String.intercalate " | " b.buttons), [])
      else
        return some (.text,
          some ("<Сообщение непредусмотренного типа: " ++ mtype ++ ">"), [])

/-- `payload_to_msg` (src/app/green_api/green_msg.py lines 113-242): the
skeleton message built from chat metadata (lines 131-160) with the
per-type branch outcome (`payloadBody`) written into it. -/
def payloadToMsg (env : IngestEnv) (payload : GPayload) (dbInstanceId : Nat)
    (incoming : Bool) (archived : Bool) : Except PyErr (Option Msg) := do
  let chatId := payload.chatId
  let phone := rsplitBefore chatId "@"
  let chatName := if pyTruthy payload.senderName then payload.senderName.getD "" else phone
  match ← payloadBody env payload with
  | none => return none
  | some (mt, txt, fls) =>
    return some
      { instance_id := dbInstanceId
        conversation_id := env.convId chatId
        wa_message_id := some payload.idMessage
        chat_id := chatId
        chat_name := chatName
        created_at := payload.timestamp
        from_app := false
        direction := if incoming then .inc else .out
        status := .incoming
        message_type := mt
        text := txt
        is_archived := archived
        files := fls }

/-! ## Message store and webhook handlers (C1, C5, C10)

The persisted `messages` table is a row list; its
`UniqueConstraint("instance_id", "wa_message_id")` (src/shared/models.py
lines 148-150) rejects an insert whose non-null provider message id
duplicates an existing row for the same instance (SQL `NULL`s never
conflict). -/

/-- Violation test of the `uq_msg_wa` unique constraint for inserting `m`
into `db`: a non-null `wa_message_id` equal to an existing row's for the
same `instance_id`. -/
def waConflict (db : List Msg) (m : Msg) : Bool :=
  m.wa_message_id.isSome &&
    db.any (fun r => r.instance_id == m.instance_id
      && r.wa_message_id == m.wa_message_id)

/-- `db.add(msg); db.commit()`: append the row unless the unique constraint
fires, in which case the commit raises `IntegrityError` and the session
rolls back to the unchanged store. -/
def insertMessage (db : List Msg) (m : Msg) : Option (List Msg) :=
  if waConflict db m then none else some (db ++ [m])

/-- The store invariant of claim C1: for every instance and non-null
provider message id, at most one row. -/
def uniqueWaIds (db : List Msg) : Prop :=
  db.Pairwise (fun a b =>
    ¬(a.instance_id = b.instance_id ∧ a.wa_message_id = b.wa_message_id
      ∧ a.wa_message_id ≠ none))

/-- `_handle_incoming` (src/app/green_api/webhook.py lines 231-251) for a
payload, over the instance table `instances` (api_id ↦ internal row id) and
the message store `db`.  Returns the store after the handler and the
handler's outcome: unknown instance → warn and return; `payload_to_msg`
returning `None` → the `logger.info("Ignored msg %s …", msg.wa_message_id,
…)` call evaluates `.wa_message_id` on `None`, raising `AttributeError`;
otherwise insert, swallowing an `IntegrityError` with a rollback and a
"Dup webhook skipped" warning. -/
def handleIncoming (env : IngestEnv) (instances : List (Nat × Nat))
    (payload : GPayload) (db : List Msg) : List Msg × Except PyErr Unit :=
  match List.lookup payload.idInstance instances with
  | none => (db, .ok ())
  | some instDbId =>
    match payloadToMsg env payload instDbId true false with
    | .error e => (db, .error e)
    | .ok none => (db, .error .attributeError)
    | .ok (some m) =>
      match insertMessage db m with
      | some db2 => (db2, .ok ())
      | none => (db, .ok ())

/-- `_STATUS2ENUM` (src/app/green_api/webhook.py lines 52-59). -/
def STATUS2ENUM (s : String) : Option MessageStatus :=
  if s == "sent" then some .sent
  else if s == "delivered" then some .delivered
  else if s == "read" then some .read
  else if s == "failed" then some .error_api
  else if s == "noAccount" then some .error_api
  else if s == "notInGroup" then some .error_api
  else none

/-- Replace the first row matching (instance, provider id) — the row
`db.scalar(select(Message).where(…))` returns — by `upd` of it. -/
def updateFirstRow (instId : Nat) (waId : String) (upd : Msg → Msg) :
    List Msg → List Msg
  | [] => []
  | r :: rest =>
    if r.instance_id == instId && r.wa_message_id == some waId then
      upd r :: rest
    else r :: updateFirstRow instId waId upd rest

/-- The system diagnostic row created by `notify_send_error`
(src/app/utils/messages.py): a `sys`-direction notification message copying
the chat coordinates of the original, with a null provider id.  Inserting
it is what notifies the external collaborator (the store trigger feeds the
Telegram relay). -/
def sysDiagnostic (orig : Msg) (reason : String) : Msg :=
  { instance_id := orig.instance_id
    conversation_id := orig.conversation_id
    wa_message_id := none
    chat_id := orig.chat_id
    chat_name := orig.chat_name
    created_at := orig.created_at
    from_app := true
    direction := .sys
    status := .incoming
    message_type := .notification
    text := some ("❗️ Не удалось отправить сообщение: " ++ "\n" ++ "\x60\x60\x60" ++ reason ++ "\x60\x60\x60")
    is_archived := false
    files := [] }

/-- `_handle_status` (src/app/green_api/webhook.py lines 167-199): map the
provider status through `_STATUS2ENUM` (unknown → skip); find the message
by (instance, provider id) (unknown → skip); return unchanged if the mapped
status equals the stored one; otherwise persist the new status, and only on
the `error_api` outcome additionally create the diagnostic system message
via `notify_send_error`.  Result: the store afterwards and the list of
diagnostics emitted. -/
def handleStatus (instances : List (Nat × Nat)) (payload : GPayload)
    (db : List Msg) : List Msg × List Msg :=
  match payload.status with
  | none => (db, [])
  | some rawSt =>
    match STATUS2ENUM rawSt with
    | none => (db, [])
    | some newSt =>
      match List.lookup payload.idInstance instances with
      | none => (db, [])
      | some instDbId =>
        match db.find? (fun r => r.instance_id == instDbId
            && r.wa_message_id == some payload.idMessage) with
        | none => (db, [])
        | some m =>
          if m.status = newSt then (db, [])
          else
            let db2 := updateFirstRow instDbId payload.idMessage
              (fun r => { r with status := newSt }) db
            if newSt = .error_api then
              let desc :=
                if pyTruthy payload.description then payload.description.getD ""
                else if rawSt ≠ "" then rawSt else "неизвестная ошибка"
              let diag := sysDiagnostic { m with status := newSt }
                ("ошибка API (" ++ desc ++ ")")
              (db2 ++ [diag], [diag])
            else (db2, [])

/-! ## History backfill adapter (C4)

`history_entry_to_payload` (src/app/utils/history_downloader.py lines
162-225) translates one `getChatHistory` record into the webhook payload
shape consumed by `payload_to_msg`.  Nested one-field dicts are again
flattened to the value read downstream: `extendedTextMessageText` stands
for `entry["extendedTextMessage"]["text"]`, `extendedTextMessageDataText`
for the `text` field of `entry["extendedTextMessageData"]`, and
`quotedMessage` records only the presence of that key. -/

/-- One `getChatHistory` record, with `Option` fields for optional keys. -/
structure HistoryEntry where
  typ : String
  sendByApi : Option Bool
  idMessage : String
  timestamp : Nat
  chatId : String
  senderId : Option String
  senderName : Option String
  senderContactName : Option String
  typeMessage : String
  textMessage : Option String
  extendedTextMessageText : Option String
  extendedTextMessageDataText : Option String
  quotedMessage : Option Unit
  downloadUrl : Option String
  caption : Option String
  fileName : Option String
  mimeType : Option String
  jpegThumbnail : Option String
  isAnimated : Option Bool
  location : Option LocMD
  contact : Option ContactMD
  contacts : Option (List ContactMD)
  pollMessageData : Option PollMD
  interactiveButtons : Option InteractiveMD
  statusMessage : Option String

/-- `_FILE_MTYPES` (src/app/utils/history_downloader.py lines 44-50). -/
def FILE_MTYPES : List String :=
  ["imageMessage", "videoMessage", "audioMessage", "documentMessage", "stickerMessage"]

/-- Python truthiness of `entry.get("sendByApi")` (`bool | None`). -/
def pyTruthyB : Option Bool → Bool
  | none => false
  | some b => b

/-- `_file_section` (src/app/utils/history_downloader.py lines 64-74): the
optional string fields are coerced to present strings with `or ""` /
`.get(…, False)` defaults. -/
def fileSection (entry : HistoryEntry) : FileMD :=
  { downloadUrl := entry.downloadUrl
    caption := some (entry.caption.getD "")
    fileName := some (entry.fileName.getD "")
    jpegThumbnail := some (entry.jpegThumbnail.getD "")
    mimeType := some (entry.mimeType.getD "")
    isAnimated := some (entry.isAnimated.getD false) }

/-- `typeWebhook` derivation of the adapter: direction plus the
`sendByApi` flag. -/
def historyTypeWebhook (entry : HistoryEntry) : String :=
  if entry.typ == "incoming" then "incomingMessageReceived"
  else if pyTruthyB entry.sendByApi then "outgoingAPIMessageReceived"
  else "outgoingMessageReceived"

/-- `history_entry_to_payload` (src/app/utils/history_downloader.py lines
162-225), branch by branch; required dict reads may raise `KeyError`. -/
def historyEntryToPayload (entry : HistoryEntry) (apiId : Nat) :
    Except PyErr GPayload := do
  let mtype := entry.typeMessage
  let md0 := mdOfType mtype
  let mdata ←
    if mtype == "textMessage" then do
      let t ← req entry.textMessage
      pure { md0 with textMessageData := some t }
    else if mtype == "extendedTextMessage" then do
      let t ← (if pyTruthy entry.textMessage then pure (entry.textMessage.getD "")
               else req entry.extendedTextMessageText)
      pure { md0 with extendedTextData := some t }
    else if mtype == "reactionMessage" then do
      let t ← req entry.extendedTextMessageDataText
      pure { md0 with extendedTextData := some t }
    else if mtype == "quotedMessage" then do
      let t ← req entry.extendedTextMessageText
      let _ ← req entry.quotedMessage
      pure { md0 with extendedTextData := some t }
    else if mtype ∈ FILE_MTYPES then
      pure { md0 with fileMessageData := some (fileSection entry) }
    else if mtype == "locationMessage" then do
      let l ← req entry.location
      pure { md0 with locationMessageData := some l }
    else if mtype == "contactMessage" then do
      let c ← req entry.contact
      pure { md0 with contactMessageData := some c }
    else if mtype == "contactsArrayMessage" then do
      let cs ← req entry.contacts
      pure { md0 with innerContacts := some cs }
    else if mtype == "pollMessage" || mtype == "pollUpdateMessage" then do
      let p ← req entry.pollMessageData
      pure { md0 with pollMessageData := some p }
    else if mtype == "interactiveButtons" then do
      let b ← req entry.interactiveButtons
      pure { md0 with interactiveButtons := some b }
    else
      pure md0
  pure
    { typeWebhook := historyTypeWebhook entry
      idMessage := entry.idMessage
      timestamp := entry.timestamp
      idInstance := apiId
      chatId := entry.chatId
      senderName := some (entry.senderName.getD "")
      messageData := mdata
      status := entry.statusMessage
      description := none }

/-- Modelled from the spec: the native provider webhook payload of a live
message equivalent to the history entry — the `{typeWebhook, idMessage,
timestamp, instanceData, senderData, messageData}` shape of §6 carrying the
same content values as the entry, with each optional provider field present
exactly when the entry carries it (the live webhook is not under src/; its
shape is fixed by the spec and by what `payload_to_msg` consumes). -/
def nativeMessageData (entry : HistoryEntry) : MessageData :=
  let mtype := entry.typeMessage
  let md0 := mdOfType mtype
  if mtype == "textMessage" then
    { md0 with textMessageData := entry.textMessage }
  else if mtype == "extendedTextMessage" then
    { md0 with extendedTextData :=
        if pyTruthy entry.textMessage then some (entry.textMessage.getD "")
        else entry.extendedTextMessageText }
  else if mtype == "reactionMessage" then
    { md0 with extendedTextData := entry.extendedTextMessageDataText }
  else if mtype == "quotedMessage" then
    { md0 with extendedTextData := entry.extendedTextMessageText }
  else if mtype ∈ FILE_MTYPES then
    { md0 with fileMessageData := some (FileMD.mk entry.downloadUrl entry.caption
        entry.fileName entry.mimeType entry.jpegThumbnail entry.isAnimated) }
  else if mtype == "locationMessage" then
    { md0 with locationMessageData := entry.location }
  else if mtype == "contactMessage" then
    { md0 with contactMessageData := entry.contact }
  else if mtype == "contactsArrayMessage" then
    { md0 with innerContacts := entry.contacts }
  else if mtype == "pollMessage" || mtype == "pollUpdateMessage" then
    { md0 with pollMessageData := entry.pollMessageData }
  else if mtype == "interactiveButtons" then
    { md0 with interactiveButtons := entry.interactiveButtons }
  else md0

/-- Modelled from the spec: the full native webhook payload of the
equivalent live message (see `nativeMessageData`). -/
def nativePayloadOfEntry (entry : HistoryEntry) (apiId : Nat) : GPayload :=
  { typeWebhook := historyTypeWebhook entry
    idMessage := entry.idMessage
    timestamp := entry.timestamp
    idInstance := apiId
    chatId := entry.chatId
    senderName := entry.senderName
    messageData := nativeMessageData entry
    status := entry.statusMessage
    description := none }

/-- The provider message types for which the adapter has an explicit
translation branch. -/
def adapterHandledTypes : List String :=
  ["textMessage", "extendedTextMessage", "reactionMessage", "quotedMessage",
   "imageMessage", "videoMessage", "audioMessage", "documentMessage",
   "stickerMessage", "locationMessage", "contactMessage",
   "contactsArrayMessage", "pollMessage", "pollUpdateMessage",
   "interactiveButtons"]

/-- The canonical fields claim C4 compares: message type, text, attachment
count — `none` when ingestion yields no message or raises. -/
def ingestObs (r : Except PyErr (Option Msg)) :
    Option (MessageType × Option String × Nat) :=
  match r with
  | .ok (some m) => some (m.message_type, m.text, m.files.length)
  | _ => none

/-! ## Sample data for witnesses and counterexamples -/

/-- A concrete ingestion environment whose downloads always succeed. -/
def mediaEnv : IngestEnv :=
  { downloadFileUrl := fun _ _ => none
    download := fun _ _ => some ("2025/01/a.jpg", 3)
    urlBasename := fun _ => ""
    publicUrlOf := fun p => "/media/" ++ p
    convId := fun _ => 1 }

/-- Instance table with one known account: api_id 7 ↦ internal row id 1. -/
def instTable : List (Nat × Nat) := [(7, 1)]

/-- A history entry for an image message without a caption. -/
def capless : HistoryEntry :=
  { typ := "incoming", sendByApi := none, idMessage := "ID1", timestamp := 5
    chatId := "79@c.us", senderId := none, senderName := none
    senderContactName := none, typeMessage := "imageMessage"
    textMessage := none, extendedTextMessageText := none
    extendedTextMessageDataText := none, quotedMessage := none
    downloadUrl := some "http://h/a.jpg", caption := none
    fileName := some "a.jpg", mimeType := some "image/jpeg"
    jpegThumbnail := none, isAnimated := none, location := none
    contact := none, contacts := none, pollMessageData := none
    interactiveButtons := none, statusMessage := none }

/-- The same image entry, with an explicit caption. -/
def captioned : HistoryEntry :=
  { capless with caption := some "hi", idMessage := "ID2" }

/-- The adapter's output payload for `captioned`. -/
def captionedPayload : GPayload :=
  (historyEntryToPayload captioned 9).toOption.getD
    (nativePayloadOfEntry captioned 9)

/-- A plain inbound text webhook payload for the known instance. -/
def textPayload : GPayload :=
  { typeWebhook := "incomingMessageReceived", idMessage := "W1", timestamp := 1
    idInstance := 7, chatId := "79@c.us", senderName := none
    messageData := { mdOfType "textMessage" with textMessageData := some "hello" }
    status := none, description := none }

/-- An inbound webhook payload of an ignored type for the known instance. -/
def ignoredPayload : GPayload :=
  { typeWebhook := "incomingMessageReceived", idMessage := "W2", timestamp := 1
    idInstance := 7, chatId := "79@c.us", senderName := none
    messageData := mdOfType "pollUpdateMessage"
    status := none, description := none }

/-- A stored outbound message row with provider id "W1" and status `sent`. -/
def sentRow : Msg :=
  { instance_id := 1, conversation_id := 1, wa_message_id := some "W1"
    chat_id := "79@c.us", chat_name := "79", created_at := 1
    from_app := true, direction := .out, status := .sent
    message_type := .text, text := some "hello", is_archived := false
    files := [] }

/-- A `sent` status webhook for the stored row `sentRow`. -/
def sentStatusPayload : GPayload :=
  { typeWebhook := "outgoingMessageStatus", idMessage := "W1", timestamp := 2
    idInstance := 7, chatId := "79@c.us", senderName := none
    messageData := mdOfType "", status := some "sent", description := none }

/-- An outbound message with two attachments, as in the spec scenario. -/
def twoFileMsg : OutMsg :=
  { chat_id := "123@c.us", text := some "hello"
    files := [{ ftype := .image, name := "a.jpg", mime := "image/jpeg"
                path := "/m/a.jpg", url := "/media/a.jpg", size := 10 },
              { ftype := .other, name := "b.pdf", mime := "application/pdf"
                path := "/m/b.pdf", url := "/media/b.pdf", size := 20 }]
    is_archived := false, from_app := true }

/-! ## Helper lemmas -/

/-- The admin collision loop never returns an occupied name. -/
lemma buildMediaPath_not_mem (existing : List MediaName) (stem ext : String) :
    buildMediaPath existing stem ext ∉ existing := by
  unfold buildMediaPath
  exact Nat.find_spec (exists_free_candidate existing stem ext)

/-- Acquiring a present lock marks exactly that account's entry held. -/
lemma lockHeld_lockAcquire (m : LockMap) (apiId : Nat)
    (h : (List.lookup apiId m).isSome) :
    lockHeld (lockAcquire m apiId) apiId = true := by
  induction m with
  | nil => simp [List.lookup] at h
  | cons p rest ih =>
    obtain ⟨k, v⟩ := p
    by_cases hk : k = apiId
    · subst hk
      have e1 : lockAcquire ((k, v) :: rest) k = (k, true) :: lockAcquire rest k := by
        simp [lockAcquire]
      rw [lockHeld, e1]
      have e2 : List.lookup k ((k, true) :: lockAcquire rest k) = some true := by
        simp [List.lookup]
      rw [e2]
      rfl
    · have hne : (apiId == k) = false := by simpa using (Ne.symm hk)
      have hne2 : (k == apiId) = false := by simpa using hk
      have e1 : lockAcquire ((k, v) :: rest) apiId = (k, v) :: lockAcquire rest apiId := by
        simp [lockAcquire, hne2]
      have e2 : List.lookup apiId ((k, v) :: lockAcquire rest apiId) =
          List.lookup apiId (lockAcquire rest apiId) := by
        simp [List.lookup, hne]
      have h3 : (List.lookup apiId rest).isSome := by
        have e3 : List.lookup apiId ((k, v) :: rest) = List.lookup apiId rest := by
          simp [List.lookup, hne]
        rwa [e3] at h
      rw [lockHeld, e1, e2]
      exact ih h3

/-- With an empty caption variable, the upload loop is a plain captionless
map over the remaining files. -/
lemma sendFilesLoop_empty (chatId : String) (l : List FileRec) :
    sendFilesLoop chatId "" l = l.map (fun g => SendCall.sendFile chatId g.name g.mime "") := by
  induction l with
  | nil => rfl
  | cons f rest ih => simp [sendFilesLoop, ih]

/-- Every message produced by `payload_to_msg` carries the payload's
provider message id. -/
lemma payloadToMsg_wa (env : IngestEnv) (payload : GPayload) (dbId : Nat)
    (inc arch : Bool) (m : Msg)
    (h : payloadToMsg env payload dbId inc arch = .ok (some m)) :
    m.wa_message_id = some payload.idMessage := by
  unfold payloadToMsg at h
  cases hb : payloadBody env payload with
  | error e => rw [hb] at h; simp [bind, Except.bind] at h
  | ok o =>
    rw [hb] at h
    cases o with
    | none => simp [bind, Except.bind, pure, Except.pure] at h
    | some t =>
      obtain ⟨mt, txt, fls⟩ := t
      simp [bind, Except.bind, pure, Except.pure] at h
      rw [← h]

/-- `_handle_incoming` on an unknown instance only warns. -/
lemma handleIncoming_unknown (env : IngestEnv) (instances : List (Nat × Nat))
    (payload : GPayload) (db : List Msg)
    (hinst : List.lookup payload.idInstance instances = none) :
    handleIncoming env instances payload db = (db, .ok ()) := by
  unfold handleIncoming
  rw [hinst]

/-- Unfolding of `_handle_incoming` for a known instance. -/
lemma handleIncoming_known (env : IngestEnv) (instances : List (Nat × Nat))
    (payload : GPayload) (db : List Msg) (instDbId : Nat)
    (hinst : List.lookup payload.idInstance instances = some instDbId) :
    handleIncoming env instances payload db =
      (match payloadToMsg env payload instDbId true false with
       | .error e => (db, .error e)
       | .ok none => (db, .error PyErr.attributeError)
       | .ok (some m) =>
         match insertMessage db m with
         | some db3 => (db3, .ok ())
         | none => (db, .ok ())) := by
  unfold handleIncoming
  rw [hinst]

/-- Replacing the status of the first matching row commutes with looking
that row up. -/
lemma find?_updateFirstRow (instId : Nat) (waId : String) (st : MessageStatus)
    (db : List Msg) :
    List.find? (fun r => r.instance_id == instId && r.wa_message_id == some waId)
      (updateFirstRow instId waId (fun r => { r with status := st }) db) =
    (List.find? (fun r => r.instance_id == instId && r.wa_message_id == some waId)
      db).map (fun r => { r with status := st }) := by
  induction db with
  | nil => rfl
  | cons r rest ih =>
    by_cases hP : (r.instance_id == instId && r.wa_message_id == some waId) = true
    · simp [updateFirstRow, hP, List.find?]
    · have hP2 : (r.instance_id == instId && r.wa_message_id == some waId) = false := by
        simpa using hP
      simp [updateFirstRow, hP2, List.find?, ih]

/-- `_handle_status` is a no-op when the mapped status equals the stored
one. -/
lemma statusNoop (instances : List (Nat × Nat)) (payload : GPayload)
    (db : List Msg) (instDbId : Nat) (m : Msg) (rawSt : String)
    (newSt : MessageStatus)
    (hst : payload.status = some rawSt)
    (hmap : STATUS2ENUM rawSt = some newSt)
    (hinst : List.lookup payload.idInstance instances = some instDbId)
    (hfind : db.find? (fun r => r.instance_id == instDbId
      && r.wa_message_id == some payload.idMessage) = some m)
    (hsame : m.status = newSt) :
    handleStatus instances payload db = (db, []) := by
  simp [handleStatus, hst, hmap, hinst, hfind, hsame]

/-- Delivering the same status webhook a second time is always a no-op. -/
lemma statusIdem (instances : List (Nat × Nat)) (payload : GPayload) (db : List Msg) :
    handleStatus instances payload ((handleStatus instances payload db).1) =
      ((handleStatus instances payload db).1, []) := by
  cases hst : payload.status with
  | none => simp [handleStatus, hst]
  | some rawSt =>
    cases hmap : STATUS2ENUM rawSt with
    | none => simp [handleStatus, hst, hmap]
    | some newSt =>
      cases hinst : List.lookup payload.idInstance instances with
      | none => simp [handleStatus, hst, hmap, hinst]
      | some instDbId =>
        cases hfind : db.find? (fun r => r.instance_id == instDbId
            && r.wa_message_id == some payload.idMessage) with
        | none => simp [handleStatus, hst, hmap, hinst, hfind]
        | some m =>
          by_cases hsame : m.status = newSt
          · simp [handleStatus, hst, hmap, hinst, hfind, hsame]
          · have hupd : (updateFirstRow instDbId payload.idMessage
                (fun r => { r with status := newSt }) db).find?
                  (fun r => r.instance_id == instDbId
                    && r.wa_message_id == some payload.idMessage) =
                some { m with status := newSt } := by
              rw [find?_updateFirstRow, hfind]
              rfl
            by_cases herr : newSt = MessageStatus.error_api
            · have hsame2 : ¬ m.status = MessageStatus.error_api := by
                rw [herr] at hsame; exact hsame
              have e1 : handleStatus instances payload db =
                  (updateFirstRow instDbId payload.idMessage
                      (fun r => { r with status := newSt }) db ++
                    [sysDiagnostic { m with status := newSt }
                      ("ошибка API ("
                        ++ (if pyTruthy payload.description then payload.description.getD ""
                            else if rawSt ≠ "" then rawSt else "неизвестная ошибка") ++ ")")],
                   [sysDiagnostic { m with status := newSt }
                      ("ошибка API ("
                        ++ (if pyTruthy payload.description then payload.description.getD ""
                            else if rawSt ≠ "" then rawSt else "неизвестная ошибка") ++ ")")]) := by
                simp [handleStatus, hst, hmap, hinst, hfind, hsame, hsame2, herr]
              rw [e1]
              simp [handleStatus, hst, hmap, hinst, List.find?_append, hupd, sysDiagnostic]
            · have e1 : handleStatus instances payload db =
                  (updateFirstRow instDbId payload.idMessage
                      (fun r => { r with status := newSt }) db, []) := by
                simp [handleStatus, hst, hmap, hinst, hfind, hsame, herr]
              rw [e1]
              simp [handleStatus, hst, hmap, hinst, hupd]

/-- When the mapped status differs, it is persisted on the stored row, and a
diagnostic is emitted exactly on the `error_api` outcome. -/
lemma statusUpdate (instances : List (Nat × Nat)) (payload : GPayload)
    (db : List Msg) (instDbId : Nat) (m : Msg) (rawSt : String)
    (newSt : MessageStatus)
    (hst : payload.status = some rawSt)
    (hmap : STATUS2ENUM rawSt = some newSt)
    (hinst : List.lookup payload.idInstance instances = some instDbId)
    (hfind : db.find? (fun r => r.instance_id == instDbId
      && r.wa_message_id == some payload.idMessage) = some m)
    (hdiff : m.status ≠ newSt) :
    ((handleStatus instances payload db).1).find?
      (fun r => r.instance_id == instDbId
        && r.wa_message_id == some payload.idMessage) =
      some { m with status := newSt } ∧
    ((handleStatus instances payload db).2).length =
      (if newSt = MessageStatus.error_api then 1 else 0) := by
  have hupd : (updateFirstRow instDbId payload.idMessage
      (fun r => { r with status := newSt }) db).find?
        (fun r => r.instance_id == instDbId
          && r.wa_message_id == some payload.idMessage) =
      some { m with status := newSt } := by
    rw [find?_updateFirstRow, hfind]
    rfl
  by_cases herr : newSt = MessageStatus.error_api
  · subst herr
    constructor
    · simp [handleStatus, hst, hmap, hinst, hfind, hdiff,
        List.find?_append, hupd, sysDiagnostic]
    · simp [handleStatus, hst, hmap, hinst, hfind, hdiff]
  · constructor
    · simp [handleStatus, hst, hmap, hinst, hfind, hdiff, herr, hupd]
    · simp [handleStatus, hst, hmap, hinst, hfind, hdiff, herr]

/-- Trace shape of the `download_safe` retry loop: try count, sleep
schedule, unlink count, and the all-failures outcome. -/
lemma downloadTraceParts (outcome : Nat → DlOutcome) (jitter : Nat → ℚ) :
    (downloadSafeTrace outcome jitter).attempts ≤ 4 ∧
    (downloadSafeTrace outcome jitter).sleeps =
      (List.range ((downloadSafeTrace outcome jitter).attempts - 1)).map
        (fun k => (3 / 2 : ℚ) ^ (k + 1) * jitter (k + 1)) ∧
    (downloadSafeTrace outcome jitter).unlinks =
      (downloadSafeTrace outcome jitter).attempts -
        (if (downloadSafeTrace outcome jitter).result = none then 0 else 1) ∧
    ((∀ k, dlFails (outcome k) = true) →
      (downloadSafeTrace outcome jitter).result = none ∧
      (downloadSafeTrace outcome jitter).attempts = 4) := by
  cases h0 : dlFails (outcome 0) <;> cases h1 : dlFails (outcome 1) <;>
    cases h2 : dlFails (outcome 2) <;> cases h3 : dlFails (outcome 3) <;>
    simp [downloadSafeTrace, dlLoop, h0, h1, h2, h3, List.range_succ] <;>
    first
      | rfl
      | exact ⟨0, h0⟩
      | exact ⟨1, h1⟩
      | exact ⟨2, h2⟩
      | exact ⟨3, h3⟩

/-- After the final download failure, `payload_to_msg` degrades the media
message to a text placeholder carrying the original caption. -/
lemma degradeOnFailure (env : IngestEnv) (payload : GPayload) (dbId : Nat)
    (inc arch : Bool) (fm : FileMD)
    (hmem : payload.messageData.typeMessage ∈ FILE_MTYPES)
    (hfm : payload.messageData.fileMessageData = some fm)
    (hdl : ∀ u f, env.download u f = none) :
    ∃ m, payloadToMsg env payload dbId inc arch = .ok (some m) ∧
      m.message_type = .text ∧ m.files = [] ∧
      m.text = some (if pyTruthy fm.caption then
          fm.caption.getD "" ++ "\n<Не удалось скачать файл ("
            ++ (if pyTruthy fm.fileName then fm.fileName.getD "" else "--") ++ ")>"
        else "<Не удалось скачать файл ("
            ++ (if pyTruthy fm.fileName then fm.fileName.getD "" else "no-name") ++ ")>") := by
  simp only [FILE_MTYPES, List.mem_cons, List.not_mem_nil, or_false] at hmem
  rcases hmem with h | h | h | h | h <;>
    cases hcap : pyTruthy fm.caption <;>
    (simp [payloadToMsg, payloadBody, h, hfm, IGNORE_MTYPE, TEXT_MTYPES, EXT2FCLS,
       downloadSafeResult, hdl, hcap, req, bind, Except.bind, pure, Except.pure];
     try exact ⟨_, rfl, rfl, rfl, rfl⟩)

/-- The compared canonical fields of an ingested payload are determined by
the per-type branch outcome alone. -/
lemma ingestObs_payloadToMsg (env : IngestEnv) (p : GPayload) (dbId : Nat)
    (inc arch : Bool) :
    ingestObs (payloadToMsg env p dbId inc arch) =
      (match payloadBody env p with
       | .ok (some (mt, txt, fls)) => some (mt, txt, fls.length)
       | .ok none => none
       | .error _ => none) := by
  unfold payloadToMsg ingestObs
  cases hb : payloadBody env p with
  | error e => simp [bind, Except.bind]
  | ok o =>
    cases o with
    | none => simp [bind, Except.bind, pure, Except.pure]
    | some t =>
      obtain ⟨mt, txt, fls⟩ := t
      simp [bind, Except.bind, pure, Except.pure]

/-! ## Claim theorems -/

/-- C1: for every instance and non-null provider message id at most one
Message row exists; a duplicate delivery hits the uniqueness constraint,
the handler swallows the IntegrityError (rollback and log), and the store
keeps exactly the row inserted by the first delivery: a successful
`_handle_incoming` run preserves the uniqueness invariant, and re-running
it on the resulting store changes nothing and still reports success. -/
theorem C1_webhook_dedup (env : IngestEnv) (instances : List (Nat × Nat))
    (payload : GPayload) (db db2 : List Msg)
    (h : handleIncoming env instances payload db = (db2, .ok ())) :
    (uniqueWaIds db → uniqueWaIds db2) ∧
    handleIncoming env instances payload db2 = (db2, .ok ()) := by
  cases hinst : List.lookup payload.idInstance instances with
  | none =>
    rw [handleIncoming_unknown env instances payload db hinst] at h
    simp only [Prod.mk.injEq] at h
    obtain ⟨hdb, -⟩ := h
    subst hdb
    exact ⟨id, handleIncoming_unknown env instances payload db hinst⟩
  | some instDbId =>
    rw [handleIncoming_known env instances payload db instDbId hinst] at h
    rw [handleIncoming_known env instances payload db2 instDbId hinst]
    cases hp : payloadToMsg env payload instDbId true false with
    | error e => rw [hp] at h; simp at h
    | ok o =>
      rw [hp] at h
      cases o with
      | none => simp at h
      | some m =>
        have hwa : m.wa_message_id = some payload.idMessage :=
          payloadToMsg_wa env payload instDbId true false m hp
        have h2 : (match insertMessage db m with
            | some db3 => (db3, (Except.ok () : Except PyErr Unit))
            | none => (db, Except.ok ())) = (db2, Except.ok ()) := h
        cases hins : insertMessage db m with
        | none =>
          rw [hins] at h2
          simp only [Prod.mk.injEq] at h2
          obtain ⟨hdb, -⟩ := h2
          subst hdb
          refine ⟨id, ?_⟩
          show (match insertMessage db m with
            | some db3 => (db3, (Except.ok () : Except PyErr Unit))
            | none => (db, Except.ok ())) = (db, Except.ok ())
          rw [hins]
        | some db3 =>
          rw [hins] at h2
          simp only [Prod.mk.injEq] at h2
          obtain ⟨hdb, -⟩ := h2
          subst hdb
          have hdb3 : db3 = db ++ [m] := by
            unfold insertMessage at hins
            by_cases hc : waConflict db m
            · simp [hc] at hins
            · simp [hc] at hins; exact hins.symm
          have hconf : waConflict db m = false := by
            unfold insertMessage at hins
            by_cases hc : waConflict db m
            · simp [hc] at hins
            · simpa using hc
          have hsome : m.wa_message_id.isSome := by rw [hwa]; rfl
          constructor
          · intro huniq
            rw [hdb3]
            unfold uniqueWaIds at huniq ⊢
            rw [List.pairwise_append]
            refine ⟨huniq, by simp, ?_⟩
            intro a ha b hb
            have hbm : b = m := by simpa using hb
            rw [hbm]
            intro ⟨hinsteq, hwaeq, hwane⟩
            have hany : db.any (fun r => r.instance_id == m.instance_id
                && r.wa_message_id == m.wa_message_id) = true := by
              rw [List.any_eq_true]
              exact ⟨a, ha, by simp [hinsteq, hwaeq]⟩
            unfold waConflict at hconf
            rw [hsome, hany] at hconf
            simp at hconf
          · have hconf2 : waConflict db3 m = true := by
              unfold waConflict
              rw [hsome]
              simp only [Bool.true_and]
              rw [List.any_eq_true]
              refine ⟨m, ?_, by simp⟩
              rw [hdb3]
              simp
            have hins2 : insertMessage db3 m = none := by
              unfold insertMessage
              rw [hconf2]
              simp
            show (match insertMessage db3 m with
              | some db4 => (db4, (Except.ok () : Except PyErr Unit))
              | none => (db3, Except.ok ())) = (db3, Except.ok ())
            rw [hins2]

/-- Witness for C1: a concrete inbound text webhook inserted into an empty
store; re-delivering it leaves the store unchanged and still succeeds. -/
theorem C1_webhook_dedup_witness :
    (uniqueWaIds [] →
      uniqueWaIds (handleIncoming mediaEnv instTable textPayload []).1) ∧
    handleIncoming mediaEnv instTable textPayload
        (handleIncoming mediaEnv instTable textPayload []).1 =
      ((handleIncoming mediaEnv instTable textPayload []).1, .ok ()) :=
  C1_webhook_dedup mediaEnv instTable textPayload []
    (handleIncoming mediaEnv instTable textPayload []).1 rfl

/-- C2 (code bug): `GreenAPIClient._json` enters its limiter with
`async with limiter`, i.e. the inherited `AsyncLimiter.acquire`, which never
reads the `_blocked_until` timestamp `block()` sets — `wait_slot`, the only
method honouring the cooldown, is called nowhere.  Evaluated at the failing
input (a fresh 1-rps limiter blocked at time 0): the `_json` acquisition
completes at time 0, strictly before the claimed bound `0 + 1.5 × period =
1.5`, while the unused `wait_slot` would have waited until 1.5. -/
theorem C2_block_bypassed :
    jsonAcquireDoneAt (limiterBlock (mkSmartLimiter 1 0) 0) 0 = 0 ∧
    (0 : ℚ) < 0 + 3 / 2 * (limiterBlock (mkSmartLimiter 1 0) 0).period ∧
    (limiterBlock (mkSmartLimiter 1 0) 0).blockedUntil = some (3 / 2) ∧
    waitSlotDoneAt (limiterBlock (mkSmartLimiter 1 0) 0) 0 = 3 / 2 := by
  norm_num [mkSmartLimiter, limiterBlock, jsonAcquireDoneAt, acquireDoneAt, waitSlotDoneAt]

/-- C3: a backfill request while the account's lock is held is rejected
immediately with HTTP 409 and leaves the lock map unchanged; a request
while the lock is free returns HTTP 201 with the lock now held. -/
theorem C3_backfill_lock (m : LockMap) (apiId : Nat) :
    (lockHeld m apiId = true → adminHistory m apiId = (409, m)) ∧
    (lockHeld m apiId = false →
      (adminHistory m apiId).1 = 201 ∧
      lockHeld (adminHistory m apiId).2 apiId = true) := by
  constructor
  · intro h
    have hsome : List.lookup apiId m = some true := by
      unfold lockHeld at h
      cases hl : List.lookup apiId m with
      | none => rw [hl] at h; simp at h
      | some b => rw [hl] at h; simp at h; rw [h]
    unfold adminHistory lockSetdefault
    rw [hsome]
    simp [lockHeld, hsome]
  · intro h
    unfold adminHistory
    cases hl : List.lookup apiId m with
    | none =>
      simp only [lockSetdefault, hl]
      have hcond : lockHeld ((apiId, false) :: m) apiId = false := by
        simp [lockHeld, List.lookup]
      simp only [hcond, Bool.false_eq_true, if_false]
      refine ⟨by simp, lockHeld_lockAcquire _ _ (by simp [List.lookup])⟩
    | some b =>
      have hb : b = false := by
        unfold lockHeld at h
        rw [hl] at h
        simpa using h
      subst hb
      simp only [lockSetdefault, hl]
      simp only [h, Bool.false_eq_true, if_false]
      refine ⟨by simp, lockHeld_lockAcquire _ _ (by simp [hl])⟩

/-- Witness for C3: account 5 held → 409 with the map untouched; account 5
free → 201 and the lock becomes held. -/
theorem C3_backfill_lock_witness :
    adminHistory [(5, true)] 5 = (409, [(5, true)]) ∧
    (adminHistory [(5, false)] 5).1 = 201 ∧
    lockHeld (adminHistory [(5, false)] 5).2 5 = true :=
  ⟨(C3_backfill_lock [(5, true)] 5).1 (by decide),
   (C3_backfill_lock [(5, false)] 5).2 (by decide)⟩

/-- C5: a status webhook whose mapped status equals the stored one leaves
the store untouched and emits nothing — so a second delivery of any status
webhook after the first is always a no-op; a differing status is persisted
on the row, and only the `error_api` outcome emits the diagnostic system
message that notifies the external collaborator. -/
theorem C5_status_transition (instances : List (Nat × Nat)) (payload : GPayload)
    (db : List Msg) (instDbId : Nat) (m : Msg) (rawSt : String)
    (newSt : MessageStatus)
    (hst : payload.status = some rawSt)
    (hmap : STATUS2ENUM rawSt = some newSt)
    (hinst : List.lookup payload.idInstance instances = some instDbId)
    (hfind : db.find? (fun r => r.instance_id == instDbId
      && r.wa_message_id == some payload.idMessage) = some m) :
    (m.status = newSt → handleStatus instances payload db = (db, [])) ∧
    (m.status ≠ newSt →
      ((handleStatus instances payload db).1).find?
          (fun r => r.instance_id == instDbId
            && r.wa_message_id == some payload.idMessage) =
        some { m with status := newSt } ∧
      ((handleStatus instances payload db).2).length =
        (if newSt = MessageStatus.error_api then 1 else 0)) ∧
    handleStatus instances payload ((handleStatus instances payload db).1) =
      ((handleStatus instances payload db).1, []) :=
  ⟨fun hsame => statusNoop instances payload db instDbId m rawSt newSt
      hst hmap hinst hfind hsame,
   fun hdiff => statusUpdate instances payload db instDbId m rawSt newSt
      hst hmap hinst hfind hdiff,
   statusIdem instances payload db⟩

/-- Witness for C5: a `sent` status webhook for a row already `sent` is a
no-op on a concrete store. -/
theorem C5_status_transition_witness :
    handleStatus instTable sentStatusPayload [sentRow] = ([sentRow], []) :=
  (C5_status_transition instTable sentStatusPayload [sentRow] 1 sentRow
    "sent" .sent rfl rfl rfl rfl).1 rfl

/-- C8: `_json` classifies the HTTP response exactly as claimed: 429 blocks
the limiter and raises the throttle error; any other status ≥ 400 raises a
provider error carrying the response body; anything below 400 returns the
decoded body without touching the limiter. -/
theorem C8_response_classification {β : Type} (status : Nat) (bodyText : String)
    (decoded : β) :
    (status = 429 →
      jsonClassify status bodyText decoded =
        { blocked := true, result := .error (.throttle "429 Too Many Requests") }) ∧
    (status ≠ 429 → 400 ≤ status →
      jsonClassify status bodyText decoded =
        { blocked := false
          result := .error (.provider ("GREEN-API " ++ toString status ++ ": " ++ bodyText)) }) ∧
    (status < 400 →
      jsonClassify status bodyText decoded = { blocked := false, result := .ok decoded }) := by
  refine ⟨fun h => ?_, fun h h4 => ?_, fun h => ?_⟩
  · subst h; rfl
  · have hb : (status == 429) = false := by simpa using h
    simp [jsonClassify, hb, h4]
  · have hb : (status == 429) = false := by
      simp only [beq_eq_false_iff_ne, ne_eq]
      omega
    have h2 : ¬ (400 ≤ status) := by omega
    simp [jsonClassify, hb, h2]

/-- Witness for C8: statuses 429, 500 and 200 on concrete bodies. -/
theorem C8_response_classification_witness :
    jsonClassify 429 "b" (0 : Nat) =
      { blocked := true, result := .error (.throttle "429 Too Many Requests") } ∧
    jsonClassify 500 "oops" (0 : Nat) =
      { blocked := false
        result := .error (.provider ("GREEN-API " ++ toString 500 ++ ": " ++ "oops")) } ∧
    jsonClassify 200 "b" (7 : Nat) = { blocked := false, result := .ok 7 } :=
  ⟨(C8_response_classification 429 "b" 0).1 rfl,
   (C8_response_classification 500 "oops" 0).2.1 (by decide) (by decide),
   (C8_response_classification 200 "b" 7).2.2 (by decide)⟩

/-- C9: dispatching an admin-originated, non-archived outbound message with
n ≥ 1 attachments issues exactly n sequential upload calls in attachment
order; the first carries the message text as caption and every later call
an empty caption. -/
theorem C9_upload_captions (msg : OutMsg) (f : FileRec) (rest : List FileRec)
    (happ : msg.from_app = true) (harch : msg.is_archived = false)
    (hfiles : msg.files = f :: rest) :
    msgOutboxCalls msg =
      SendCall.sendFile msg.chat_id f.name f.mime (msg.text.getD "")
        :: rest.map (fun g => SendCall.sendFile msg.chat_id g.name g.mime "") ∧
    (msgOutboxCalls msg).length = msg.files.length := by
  have hmain : msgOutboxCalls msg =
      SendCall.sendFile msg.chat_id f.name f.mime (msg.text.getD "")
        :: rest.map (fun g => SendCall.sendFile msg.chat_id g.name g.mime "") := by
    simp [msgOutboxCalls, happ, harch, hfiles, sendFiles, sendFilesLoop, sendFilesLoop_empty]
  refine ⟨hmain, ?_⟩
  rw [hmain, hfiles]
  simp

/-- Witness for C9 (the spec scenario): two attachments produce two upload
calls, the first captioned, the second captionless. -/
theorem C9_upload_captions_witness :
    msgOutboxCalls twoFileMsg =
      [SendCall.sendFile "123@c.us" "a.jpg" "image/jpeg" "hello",
       SendCall.sendFile "123@c.us" "b.pdf" "application/pdf" ""] := by
  have h := C9_upload_captions twoFileMsg
    { ftype := .image, name := "a.jpg", mime := "image/jpeg"
      path := "/m/a.jpg", url := "/media/a.jpg", size := 10 }
    [{ ftype := .other, name := "b.pdf", mime := "application/pdf"
       path := "/m/b.pdf", url := "/media/b.pdf", size := 20 }]
    rfl rfl rfl
  simpa using h.1

/-- C10: an incoming webhook of an ignored message type for a known
instance makes `payload_to_msg` return `None`, and the handler's log line
then evaluates `msg.wa_message_id` on that `None`, raising
`AttributeError` — the request fails and no row is persisted. -/
theorem C10_ignored_type_crash (env : IngestEnv) (instances : List (Nat × Nat))
    (payload : GPayload) (db : List Msg) (instDbId : Nat)
    (hignore : payload.messageData.typeMessage ∈ IGNORE_MTYPE)
    (hinst : List.lookup payload.idInstance instances = some instDbId) :
    handleIncoming env instances payload db = (db, .error .attributeError) := by
  unfold handleIncoming
  rw [hinst]
  have hb : payloadToMsg env payload instDbId true false = .ok none := by
    unfold payloadToMsg payloadBody
    simp [hignore, bind, Except.bind, pure, Except.pure]
  simp [hb]

/-- Witness for C10: a concrete `pollUpdateMessage` webhook for the known
instance crashes with `AttributeError` and persists nothing. -/
theorem C10_ignored_type_crash_witness :
    handleIncoming mediaEnv instTable ignoredPayload [] =
      ([], .error .attributeError) :=
  C10_ignored_type_crash mediaEnv instTable ignoredPayload [] 1 (by decide) rfl

/-- C4 counterexample: for the captionless image history entry, the
adapter-then-ingest path stores text `""` (the adapter coerces the absent
caption to an empty string) while ingesting the native payload of the
equivalent live message stores text NULL — the compared canonical fields
differ, refuting the claim as stated. -/
theorem C4_adapter_counterexample :
    ((historyEntryToPayload capless 7).toOption.map
        (fun p => ingestObs (payloadToMsg mediaEnv p 1 true true)) =
      some (some (MessageType.file_image, some "", 1))) ∧
    ingestObs (payloadToMsg mediaEnv (nativePayloadOfEntry capless 7) 1 true true) =
      some (MessageType.file_image, none, 1) ∧
    (historyEntryToPayload capless 7).toOption.map
        (fun p => ingestObs (payloadToMsg mediaEnv p 1 true true)) ≠
      some (ingestObs (payloadToMsg mediaEnv
        (nativePayloadOfEntry capless 7) 1 true true)) :=
  ⟨by decide, by decide, by decide⟩

/-- C4 (amended): for every history entry of a type the adapter handles —
provided a media entry carries explicit caption and mimeType fields, since
the adapter coerces their absence to empty strings while the native payload
leaves them absent — adapting then ingesting yields the same canonical
message type, text and attachment count as ingesting the native webhook
payload of the equivalent live message. -/
theorem C4_adapter_equivalence (env : IngestEnv) (entry : HistoryEntry)
    (apiId dbId : Nat) (inc arch : Bool) (p : GPayload)
    (hok : historyEntryToPayload entry apiId = .ok p)
    (hmem : entry.typeMessage ∈ adapterHandledTypes)
    (hmedia : entry.typeMessage ∈ FILE_MTYPES →
      entry.caption.isSome ∧ entry.mimeType.isSome) :
    ingestObs (payloadToMsg env p dbId inc arch) =
      ingestObs (payloadToMsg env (nativePayloadOfEntry entry apiId) dbId inc arch) := by
  simp only [adapterHandledTypes, List.mem_cons, List.not_mem_nil, or_false] at hmem
  rw [ingestObs_payloadToMsg, ingestObs_payloadToMsg]
  rcases hmem with h | h | h | h | h | h | h | h | h | h | h | h | h | h | h
  -- textMessage
  · cases htm : entry.textMessage with
    | none =>
      simp [historyEntryToPayload, h, htm, req, bind, Except.bind, pure, Except.pure] at hok
    | some t =>
      simp [historyEntryToPayload, h, htm, req, bind, Except.bind, pure, Except.pure] at hok
      subst hok
      simp [payloadBody, nativePayloadOfEntry, nativeMessageData, h, htm,
        mdOfType, IGNORE_MTYPE, TEXT_MTYPES, EXT2FCLS, req,
        bind, Except.bind, pure, Except.pure]
  -- extendedTextMessage
  · cases hpt : pyTruthy entry.textMessage with
    | true =>
      simp [historyEntryToPayload, h, hpt, req, bind, Except.bind, pure, Except.pure] at hok
      subst hok
      simp [payloadBody, nativePayloadOfEntry, nativeMessageData, h, hpt,
        mdOfType, IGNORE_MTYPE, TEXT_MTYPES, EXT2FCLS, req,
        bind, Except.bind, pure, Except.pure]
    | false =>
      cases hext : entry.extendedTextMessageText with
      | none =>
        simp [historyEntryToPayload, h, hpt, hext, req, bind, Except.bind,
          pure, Except.pure] at hok
      | some t =>
        simp [historyEntryToPayload, h, hpt, hext, req, bind, Except.bind,
          pure, Except.pure] at hok
        subst hok
        simp [payloadBody, nativePayloadOfEntry, nativeMessageData, h, hpt,
          hext, mdOfType, IGNORE_MTYPE, TEXT_MTYPES, EXT2FCLS, req,
          bind, Except.bind, pure, Except.pure]
  -- reactionMessage
  · cases hr : entry.extendedTextMessageDataText with
    | none =>
      simp [historyEntryToPayload, h, hr, req, bind, Except.bind, pure, Except.pure] at hok
    | some t =>
      simp [historyEntryToPayload, h, hr, req, bind, Except.bind, pure, Except.pure] at hok
      subst hok
      simp [payloadBody, nativePayloadOfEntry, nativeMessageData, h, hr,
        mdOfType, IGNORE_MTYPE, TEXT_MTYPES, EXT2FCLS, req,
        bind, Except.bind, pure, Except.pure]
  -- quotedMessage
  · cases hq1 : entry.extendedTextMessageText with
    | none =>
      simp [historyEntryToPayload, h, hq1, req, bind, Except.bind, pure, Except.pure] at hok
    | some t =>
      cases hq2 : entry.quotedMessage with
      | none =>
        simp [historyEntryToPayload, h, hq1, hq2, req, bind, Except.bind,
          pure, Except.pure] at hok
      | some u =>
        simp [historyEntryToPayload, h, hq1, hq2, req, bind, Except.bind,
          pure, Except.pure] at hok
        subst hok
        simp [payloadBody, nativePayloadOfEntry, nativeMessageData, h, hq1,
          mdOfType, IGNORE_MTYPE, TEXT_MTYPES, EXT2FCLS, req,
          bind, Except.bind, pure, Except.pure]
  -- imageMessage
  · obtain ⟨hcap, hmime⟩ := hmedia (by simp [FILE_MTYPES, h])
    obtain ⟨c, hc⟩ := Option.isSome_iff_exists.mp hcap
    obtain ⟨mm, hmm⟩ := Option.isSome_iff_exists.mp hmime
    simp [historyEntryToPayload, h, FILE_MTYPES, req, bind, Except.bind,
      pure, Except.pure] at hok
    subst hok
    cases hf : entry.fileName with
    | none =>
      simp [payloadBody, nativePayloadOfEntry, nativeMessageData, fileSection,
        h, hc, hmm, hf, mdOfType, IGNORE_MTYPE, TEXT_MTYPES, EXT2FCLS,
        FILE_MTYPES, req, bind, Except.bind, pure, Except.pure, pyTruthy]
    | some f =>
      simp [payloadBody, nativePayloadOfEntry, nativeMessageData, fileSection,
        h, hc, hmm, hf, mdOfType, IGNORE_MTYPE, TEXT_MTYPES, EXT2FCLS,
        FILE_MTYPES, req, bind, Except.bind, pure, Except.pure, pyTruthy]
  -- videoMessage
  · obtain ⟨hcap, hmime⟩ := hmedia (by simp [FILE_MTYPES, h])
    obtain ⟨c, hc⟩ := Option.isSome_iff_exists.mp hcap
    obtain ⟨mm, hmm⟩ := Option.isSome_iff_exists.mp hmime
    simp [historyEntryToPayload, h, FILE_MTYPES, req, bind, Except.bind,
      pure, Except.pure] at hok
    subst hok
    cases hf : entry.fileName with
    | none =>
      simp [payloadBody, nativePayloadOfEntry, nativeMessageData, fileSection,
        h, hc, hmm, hf, mdOfType, IGNORE_MTYPE, TEXT_MTYPES, EXT2FCLS,
        FILE_MTYPES, req, bind, Except.bind, pure, Except.pure, pyTruthy]
    | some f =>
      simp [payloadBody, nativePayloadOfEntry, nativeMessageData, fileSection,
        h, hc, hmm, hf, mdOfType, IGNORE_MTYPE, TEXT_MTYPES, EXT2FCLS,
        FILE_MTYPES, req, bind, Except.bind, pure, Except.pure, pyTruthy]
  -- audioMessage
  · obtain ⟨hcap, hmime⟩ := hmedia (by simp [FILE_MTYPES, h])
    obtain ⟨c, hc⟩ := Option.isSome_iff_exists.mp hcap
    obtain ⟨mm, hmm⟩ := Option.isSome_iff_exists.mp hmime
    simp [historyEntryToPayload, h, FILE_MTYPES, req, bind, Except.bind,
      pure, Except.pure] at hok
    subst hok
    cases hf : entry.fileName with
    | none =>
      simp [payloadBody, nativePayloadOfEntry, nativeMessageData, fileSection,
        h, hc, hmm, hf, mdOfType, IGNORE_MTYPE, TEXT_MTYPES, EXT2FCLS,
        FILE_MTYPES, req, bind, Except.bind, pure, Except.pure, pyTruthy]
    | some f =>
      simp [payloadBody, nativePayloadOfEntry, nativeMessageData, fileSection,
        h, hc, hmm, hf, mdOfType, IGNORE_MTYPE, TEXT_MTYPES, EXT2FCLS,
        FILE_MTYPES, req, bind, Except.bind, pure, Except.pure, pyTruthy]
  -- documentMessage
  · obtain ⟨hcap, hmime⟩ := hmedia (by simp [FILE_MTYPES, h])
    obtain ⟨c, hc⟩ := Option.isSome_iff_exists.mp hcap
    obtain ⟨mm, hmm⟩ := Option.isSome_iff_exists.mp hmime
    simp [historyEntryToPayload, h, FILE_MTYPES, req, bind, Except.bind,
      pure, Except.pure] at hok
    subst hok
    cases hf : entry.fileName with
    | none =>
      simp [payloadBody, nativePayloadOfEntry, nativeMessageData, fileSection,
        h, hc, hmm, hf, mdOfType, IGNORE_MTYPE, TEXT_MTYPES, EXT2FCLS,
        FILE_MTYPES, req, bind, Except.bind, pure, Except.pure, pyTruthy]
    | some f =>
      simp [payloadBody, nativePayloadOfEntry, nativeMessageData, fileSection,
        h, hc, hmm, hf, mdOfType, IGNORE_MTYPE, TEXT_MTYPES, EXT2FCLS,
        FILE_MTYPES, req, bind, Except.bind, pure, Except.pure, pyTruthy]
  -- stickerMessage
  · obtain ⟨hcap, hmime⟩ := hmedia (by simp [FILE_MTYPES, h])
    obtain ⟨c, hc⟩ := Option.isSome_iff_exists.mp hcap
    obtain ⟨mm, hmm⟩ := Option.isSome_iff_exists.mp hmime
    simp [historyEntryToPayload, h, FILE_MTYPES, req, bind, Except.bind,
      pure, Except.pure] at hok
    subst hok
    cases hf : entry.fileName with
    | none =>
      simp [payloadBody, nativePayloadOfEntry, nativeMessageData, fileSection,
        h, hc, hmm, hf, mdOfType, IGNORE_MTYPE, TEXT_MTYPES, EXT2FCLS,
        FILE_MTYPES, req, bind, Except.bind, pure, Except.pure, pyTruthy]
    | some f =>
      simp [payloadBody, nativePayloadOfEntry, nativeMessageData, fileSection,
        h, hc, hmm, hf, mdOfType, IGNORE_MTYPE, TEXT_MTYPES, EXT2FCLS,
        FILE_MTYPES, req, bind, Except.bind, pure, Except.pure, pyTruthy]
  -- locationMessage
  · cases hl : entry.location with
    | none =>
      simp [historyEntryToPayload, h, hl, FILE_MTYPES, req, bind, Except.bind,
        pure, Except.pure] at hok
    | some x =>
      simp [historyEntryToPayload, h, hl, FILE_MTYPES, req, bind, Except.bind,
        pure, Except.pure] at hok
      subst hok
      simp [payloadBody, nativePayloadOfEntry, nativeMessageData, h, hl,
        mdOfType, IGNORE_MTYPE, TEXT_MTYPES, EXT2FCLS, FILE_MTYPES, req,
        bind, Except.bind, pure, Except.pure]
  -- contactMessage
  · cases hco : entry.contact with
    | none =>
      simp [historyEntryToPayload, h, hco, FILE_MTYPES, req, bind, Except.bind,
        pure, Except.pure] at hok
    | some x =>
      simp [historyEntryToPayload, h, hco, FILE_MTYPES, req, bind, Except.bind,
        pure, Except.pure] at hok
      subst hok
      simp [payloadBody, nativePayloadOfEntry, nativeMessageData, h, hco,
        mdOfType, IGNORE_MTYPE, TEXT_MTYPES, EXT2FCLS, FILE_MTYPES, req,
        bind, Except.bind, pure, Except.pure]
  -- contactsArrayMessage
  · cases hcs : entry.contacts with
    | none =>
      simp [historyEntryToPayload, h, hcs, FILE_MTYPES, req, bind, Except.bind,
        pure, Except.pure] at hok
    | some x =>
      simp [historyEntryToPayload, h, hcs, FILE_MTYPES, req, bind, Except.bind,
        pure, Except.pure] at hok
      subst hok
      simp [payloadBody, nativePayloadOfEntry, nativeMessageData, h, hcs,
        mdOfType, IGNORE_MTYPE, TEXT_MTYPES, EXT2FCLS, FILE_MTYPES, req,
        bind, Except.bind, pure, Except.pure]
  -- pollMessage
  · cases hpm : entry.pollMessageData with
    | none =>
      simp [historyEntryToPayload, h, hpm, FILE_MTYPES, req, bind, Except.bind,
        pure, Except.pure] at hok
    | some x =>
      simp [historyEntryToPayload, h, hpm, FILE_MTYPES, req, bind, Except.bind,
        pure, Except.pure] at hok
      subst hok
      simp [payloadBody, nativePayloadOfEntry, nativeMessageData, h, hpm,
        mdOfType, IGNORE_MTYPE, TEXT_MTYPES, EXT2FCLS, FILE_MTYPES, req,
        bind, Except.bind, pure, Except.pure]
  -- pollUpdateMessage
  · cases hpm : entry.pollMessageData with
    | none =>
      simp [historyEntryToPayload, h, hpm, FILE_MTYPES, req, bind, Except.bind,
        pure, Except.pure] at hok
    | some x =>
      simp [historyEntryToPayload, h, hpm, FILE_MTYPES, req, bind, Except.bind,
        pure, Except.pure] at hok
      subst hok
      simp [payloadBody, nativePayloadOfEntry, nativeMessageData, h, hpm,
        mdOfType, IGNORE_MTYPE, TEXT_MTYPES, EXT2FCLS, FILE_MTYPES, req,
        bind, Except.bind, pure, Except.pure]
  -- interactiveButtons
  · cases hib : entry.interactiveButtons with
    | none =>
      simp [historyEntryToPayload, h, hib, FILE_MTYPES, req, bind, Except.bind,
        pure, Except.pure] at hok
    | some x =>
      simp [historyEntryToPayload, h, hib, FILE_MTYPES, req, bind, Except.bind,
        pure, Except.pure] at hok
      subst hok
      simp [payloadBody, nativePayloadOfEntry, nativeMessageData, h, hib,
        mdOfType, IGNORE_MTYPE, TEXT_MTYPES, EXT2FCLS, FILE_MTYPES, req,
        bind, Except.bind, pure, Except.pure]

/-- Witness for the amended C4: the captioned image entry adapts and
ingests to the same canonical fields as its native payload. -/
theorem C4_adapter_equivalence_witness :
    ingestObs (payloadToMsg mediaEnv captionedPayload 2 true true) =
      ingestObs (payloadToMsg mediaEnv
        (nativePayloadOfEntry captioned 9) 2 true true) :=
  C4_adapter_equivalence mediaEnv captioned 9 2 true true captionedPayload
    rfl (by decide) (by decide)

/-- C6 counterexample: when every try fails, `download_safe` performs 4
download tries (the initial try plus the 3 retries: `while attempt <=
retries` re-enters the loop after the third failure), refuting "at most 3
times" as stated. -/
theorem C6_retry_counterexample :
    (downloadSafeTrace (fun _ => DlOutcome.err) (fun _ => 3 / 4)).attempts = 4 ∧
    ¬ ((downloadSafeTrace (fun _ => DlOutcome.err) (fun _ => 3 / 4)).attempts ≤ 3) := by
  have e : downloadSafeTrace (fun _ => DlOutcome.err) (fun _ => 3 / 4) =
      { result := none, attempts := 4
        sleeps := [(3 / 2 : ℚ) ^ 1 * (3 / 4), (3 / 2) ^ 2 * (3 / 4), (3 / 2) ^ 3 * (3 / 4)]
        unlinks := 4 } := by
    simp [downloadSafeTrace, dlLoop, dlFails]
  rw [e]
  norm_num

/-- C6 (amended): a failing media download is attempted at most 4 times (an
initial try plus up to 3 retries); between the k-th failure and the next
try the loop sleeps 1.5^k times a jitter factor in [0.5, 1); a zero-byte
result counts as a failed try; the partial file is unlinked once per
failure; when every try fails the result is `None` after exactly 4 tries;
and ingestion then degrades the media message to a text placeholder that
carries the original caption when present. -/
theorem C6_retry_behaviour (outcome : Nat → DlOutcome) (jitter : Nat → ℚ)
    (hj : ∀ k, 1 / 2 ≤ jitter k ∧ jitter k < 1) :
    (downloadSafeTrace outcome jitter).attempts ≤ 4 ∧
    (downloadSafeTrace outcome jitter).sleeps =
      (List.range ((downloadSafeTrace outcome jitter).attempts - 1)).map
        (fun k => (3 / 2 : ℚ) ^ (k + 1) * jitter (k + 1)) ∧
    (∀ s ∈ (downloadSafeTrace outcome jitter).sleeps,
      ∃ k, s = (3 / 2 : ℚ) ^ k * jitter k ∧
        1 / 2 * (3 / 2 : ℚ) ^ k ≤ s ∧ s < (3 / 2 : ℚ) ^ k) ∧
    dlFails (DlOutcome.ok 0) = true ∧
    (downloadSafeTrace outcome jitter).unlinks =
      (downloadSafeTrace outcome jitter).attempts -
        (if (downloadSafeTrace outcome jitter).result = none then 0 else 1) ∧
    ((∀ k, dlFails (outcome k) = true) →
      (downloadSafeTrace outcome jitter).result = none ∧
      (downloadSafeTrace outcome jitter).attempts = 4) ∧
    (∀ (env : IngestEnv) (payload : GPayload) (dbId : Nat) (inc arch : Bool)
        (fm : FileMD),
      payload.messageData.typeMessage ∈ FILE_MTYPES →
      payload.messageData.fileMessageData = some fm →
      (∀ u f, env.download u f = none) →
      ∃ m, payloadToMsg env payload dbId inc arch = .ok (some m) ∧
        m.message_type = .text ∧ m.files = [] ∧
        m.text = some (if pyTruthy fm.caption then
            fm.caption.getD "" ++ "\n<Не удалось скачать файл ("
              ++ (if pyTruthy fm.fileName then fm.fileName.getD "" else "--") ++ ")>"
          else "<Не удалось скачать файл ("
              ++ (if pyTruthy fm.fileName then fm.fileName.getD "" else "no-name") ++ ")>")) := by
  obtain ⟨a1, a2, a3, a4⟩ := downloadTraceParts outcome jitter
  refine ⟨a1, a2, ?_, rfl, a3, a4, degradeOnFailure⟩
  intro s hs
  rw [a2] at hs
  simp only [List.mem_map, List.mem_range] at hs
  obtain ⟨k, hk, rfl⟩ := hs
  refine ⟨k + 1, rfl, ?_, ?_⟩
  · have hjk := (hj (k + 1)).1
    have hp : (0 : ℚ) < (3 / 2) ^ (k + 1) := by positivity
    nlinarith
  · have hjk := (hj (k + 1)).2
    have hp : (0 : ℚ) < (3 / 2) ^ (k + 1) := by positivity
    nlinarith

/-- Witness for the amended C6: with constant jitter 3/4 and all tries
failing, the loop stays within 4 tries and gives up with no result. -/
theorem C6_retry_behaviour_witness :
    (downloadSafeTrace (fun _ => DlOutcome.err) (fun _ => 3 / 4)).attempts ≤ 4 ∧
    (downloadSafeTrace (fun _ => DlOutcome.err) (fun _ => 3 / 4)).result = none :=
  ⟨(C6_retry_behaviour (fun _ => DlOutcome.err) (fun _ => 3 / 4)
      (fun _ => by norm_num)).1,
   ((C6_retry_behaviour (fun _ => DlOutcome.err) (fun _ => 3 / 4)
      (fun _ => by norm_num)).2.2.2.2.2.1 (fun _ => rfl)).1⟩

/-- C7 counterexample: the core media-download path stores two attachments
with the same file name at the same path — the claimed distinctness fails
(the second `download_safe` write reuses and overwrites the first name). -/
theorem C7_collision_counterexample :
    ¬ (downloadTargetName [downloadTargetName [] "photo" ".jpg"] "photo" ".jpg"
       ≠ downloadTargetName [] "photo" ".jpg") := by decide

/-- C7 (amended): the incrementing-suffix collision policy lives in the
admin upload path `_build_media_path`, which always returns a name free in
the directory, so two successive writes there get distinct paths; the core
media-download path `download_safe` instead reuses the same target name
regardless of the directory contents. -/
theorem C7_collision_policy (existing : List MediaName) (stem ext : String) :
    buildMediaPath existing stem ext ∉ existing ∧
    buildMediaPath (buildMediaPath existing stem ext :: existing) stem ext ≠
      buildMediaPath existing stem ext ∧
    downloadTargetName (downloadTargetName existing stem ext :: existing) stem ext =
      downloadTargetName existing stem ext := by
  refine ⟨buildMediaPath_not_mem _ _ _, ?_, rfl⟩
  intro h
  have h2 := buildMediaPath_not_mem (buildMediaPath existing stem ext :: existing) stem ext
  rw [h] at h2
  exact h2 (List.mem_cons_self _ _)

end Wapanel
